import Mathlib

/-!
Verification of the source-initialization and detection-catalog core of
`scarlet_extensions` (files `initialization/source.py` and
`initialization/detection.py`), via a shallow embedding.

Floating point values are embedded as an inductive `FP` (finite rational,
NaN, signed infinity) so that the NaN / finiteness tests of the code are
representable.  Python exceptions are embedded as an `Except PyErr` result;
the broad `except Exception` handlers of the code catch every `PyErr`.
External `scarlet` constructors (`MultiComponentSource`, `ExtendedSource`,
`PointSource`) are an environment `Env` of deterministic functions of the
arguments the code passes them; the fixed `frame`, `center` and
`observation` arguments are absorbed into the environment.
-/

/-- FP models a double precision value as far as the code inspects it:
a finite value, NaN, or a signed infinity (`inf true` is plus infinity).
The code only ever compares model values with zero and sums them, so
integer spaced finite values embed every comparison outcome the code can
see while keeping all definitions kernel computable. -/
inductive FP where
  | fin : Int → FP
  | nan : FP
  | inf : Bool → FP
deriving DecidableEq

/-- isNan models `np.isnan` on one value. -/
def FP.isNan : FP → Bool
  | .nan => true
  | _ => false

/-- isFinite models `np.isfinite` on one value. -/
def FP.isFinite : FP → Bool
  | .fin _ => true
  | _ => false

/-- le0 models the IEEE comparison `x <= 0` (false on NaN). -/
def FP.le0 : FP → Bool
  | .fin q => q ≤ 0
  | .nan => false
  | .inf b => !b

/-- gt0 models the IEEE comparison `x > 0` (false on NaN). -/
def FP.gt0 : FP → Bool
  | .fin q => 0 < q
  | .nan => false
  | .inf b => b

/-- add models IEEE addition as far as specials are concerned. -/
def FP.add : FP → FP → FP
  | .nan, _ => .nan
  | _, .nan => .nan
  | .inf b, .inf c => if b = c then .inf b else .nan
  | .inf b, .fin _ => .inf b
  | .fin _, .inf c => .inf c
  | .fin a, .fin b => .fin (a + b)

/-- isZero models the IEEE comparison `x == 0` (false on NaN and infinities). -/
def FP.isZero : FP → Bool
  | .fin q => q = 0
  | _ => false

/-- fpSum2 models `np.sum` over a two dimensional array, starting from `0.0`. -/
def fpSum2 (m : List (List FP)) : FP :=
  m.foldl (fun acc row => row.foldl FP.add acc) (.fin 0)

/-- PyErr models the Python exception that aborted a computation.  All of
them are subclasses of `Exception`, so every handler in the code catches
every one of them. -/
inductive PyErr where
  | valueError
  | assertionError
  | indexError
  | nameError
  | recursionError
deriving DecidableEq

/-- pyGet models Python sequence indexing `xs[i]`: a negative index counts
from the end, an out of range index raises `IndexError`. -/
def pyGet {α : Type} (xs : List α) (i : Int) : Except PyErr α :=
  let j : Int := if i < 0 then (xs.length : Int) + i else i
  if h : 0 ≤ j ∧ j < (xs.length : Int) then
    .ok (xs.get ⟨j.toNat, by omega⟩)
  else
    .error .indexError

/-- pyCol models the numpy column slice `model[:, i]`. -/
def pyCol (model : List (List FP)) (i : Int) : Except PyErr (List FP) :=
  model.mapM (fun row => pyGet row i)

/-- ScarletComponent models one component of a scarlet source: its spectral
vector `sed`, its morphology array `morph`, and `bbox.shape`. -/
structure ScarletComponent where
  sed : List FP
  morph : List (List FP)
  bboxShape : List Nat
deriving DecidableEq

/-- MultiSrc models a constructed `scarlet.source.MultiComponentSource`;
`model` is the rendered cube `get_model()` (band, row, column).  It exposes
no `sed` attribute of its own. -/
structure MultiSrc where
  components : List ScarletComponent
  model : List (List (List FP))
  shifting : Bool := false
  isEdge : Bool := false
deriving DecidableEq

/-- ExtSrc models a constructed `scarlet.source.ExtendedSource`. -/
structure ExtSrc where
  sed : List FP
  morph : List (List FP)
  bboxShape : List Nat
  model : List (List (List FP))
  shifting : Bool := false
  isEdge : Bool := false
deriving DecidableEq

/-- PointSrc models a constructed `scarlet.source.PointSource`. -/
structure PointSrc where
  sed : List FP
  morph : List (List FP) := []
  model : List (List (List FP))
  shifting : Bool := false
  isEdge : Bool := false
deriving DecidableEq

/-- Source is the tagged union of the three model classes the code builds. -/
inductive Source where
  | multi : MultiSrc → Source
  | extended : ExtSrc → Source
  | point : PointSrc → Source
deriving DecidableEq

/-- isPoint models `isinstance(source, PointSource)`. -/
def Source.isPoint : Source → Bool
  | .point _ => true
  | _ => false

/-- getModel models `source.get_model()`, the rendered per band cube. -/
def Source.getModel : Source → List (List (List FP))
  | .multi s => s.model
  | .extended s => s.model
  | .point s => s.model

/-- setIsEdge models the attribute assignment `source.isEdge = b`. -/
def setIsEdge : Source → Bool → Source
  | .multi s, b => .multi { s with isEdge := b }
  | .extended s, b => .extended { s with isEdge := b }
  | .point s, b => .point { s with isEdge := b }

/-- edgeStep models one iteration of the loop in `hasEdgeFlux`: the test
`np.any(model[edge-1] > 0) or np.any(model[-edge] > 0)
 or np.any(model[:, edge-1] > 0) or np.any(model[:, -edge] > 0)`,
with the same short circuit order as Python. -/
def edgeStep (model : List (List FP)) (edge : Int) : Except PyErr Bool := do
  let r1 ← pyGet model (edge - 1)
  if r1.any FP.gt0 then return true
  let r2 ← pyGet model (-edge)
  if r2.any FP.gt0 then return true
  let c1 ← pyCol model (edge - 1)
  if c1.any FP.gt0 then return true
  let c2 ← pyCol model (-edge)
  return c2.any FP.gt0

/-- edgeLoop models `for edge in range(edgeDistance): if (...): return True`
followed by `return False`; the first argument is the number of iterations
left, the second the current value of `edge`. -/
def edgeLoop (model : List (List FP)) : Nat → Nat → Except PyErr Bool
  | 0, _ => .ok false
  | n + 1, edge => do
    let hit ← edgeStep model (Int.ofNat edge)
    if hit then return true else edgeLoop model n (edge + 1)

/-- hasEdgeFlux models `hasEdgeFlux(source, edgeDistance)` from
`initialization/source.py` lines 10 to 51: `None` distance short circuits to
`False`; `assert edgeDistance > 0`; the detection band is the first band
whose sed entry is positive (`np.min(np.where(sed > 0)[0])`, `ValueError`
when empty); then the border loop runs on `source.get_model()[band]`. -/
def hasEdgeFlux (source : Source) (edgeDistance : Option Int) : Except PyErr Bool :=
  match edgeDistance with
  | none => .ok false
  | some d =>
    if d ≤ 0 then .error .assertionError
    else do
      let sed ←
        match source with
        | .extended s => Except.ok s.sed
        | .point s => Except.ok s.sed
        | .multi s =>
          match s.components with
          | [] => Except.error PyErr.indexError
          | c :: _ => Except.ok c.sed
      let band ←
        match sed.findIdx? FP.gt0 with
        | some b => Except.ok b
        | none => Except.error PyErr.valueError
      let model ← pyGet source.getModel (Int.ofNat band)
      edgeLoop model d.toNat 0

/-- Env models the external scarlet constructors at the fixed `frame`,
`center` and `observation` of one `initSource` call.  `multi` receives
(symmetric, monotonic, thresh, shifting); `extended` receives
(symmetric, monotonic, thresh, min_grad, shifting); `point` receives no
further arguments.  Each returns the constructed model or the exception
the constructor raised. -/
structure Env where
  multi : Bool → Bool → ℚ → Bool → Except PyErr MultiSrc
  extended : Bool → Bool → ℚ → ℚ → Bool → Except PyErr ExtSrc
  point : Except PyErr PointSrc

/-- multiGateFail models the validity test on lines 165 to 167:
`np.any([np.any(np.isnan(c.sed)) for c in source.components])
 or np.any([np.all(c.sed <= 0) for c in source.components])
 or np.any([np.any(~np.isfinite(c.morph)) for c in source.components])`. -/
def multiGateFail (s : MultiSrc) : Bool :=
  (s.components.any fun c => c.sed.any FP.isNan)
  || (s.components.any fun c => c.sed.all FP.le0)
  || (s.components.any fun c => c.morph.any fun row => row.any fun v => !v.isFinite)

/-- singleGateFail models the validity test on line 195:
`np.any(np.isnan(source.sed)) or np.all(source.sed <= 0)
 or np.sum(source.morph) == 0`. -/
def singleGateFail (s : ExtSrc) : Bool :=
  s.sed.any FP.isNan || s.sed.all FP.le0 || (fpSum2 s.morph).isZero

/-- multiAttempt models one iteration of the `while maxComponents > 1` try
block (lines 162 to 181): construct a `MultiComponentSource`, raise
`ValueError` when the validity gate fails, else apply the two downgrade
tests on `c.bbox.shape[1:]` (setting `maxComponents` to 0 or 1), else run
the in-branch edge test which sets `source.shifting = True`.  The returned
integer is the value of `maxComponents` at the `break`. -/
def multiAttempt (env : Env) (sym mono : Bool) (th : ℚ) (ed : Option Int)
    (shifting dg : Bool) (k : Int) : Except PyErr (MultiSrc × Int) :=
  match env.multi sym mono th shifting with
  | .error e => .error e
  | .ok source =>
    if multiGateFail source then .error .valueError
    else if dg && (source.components.all fun c => (c.bboxShape.drop 1).all (· ≤ 8)) then
      .ok (source, 0)
    else if dg && (source.components.all fun c => (c.bboxShape.drop 1).all (· ≤ 16)) then
      .ok (source, 1)
    else
      match hasEdgeFlux (.multi source) ed with
      | .error e => .error e
      | .ok true => .ok ({ source with shifting := true }, k)
      | .ok false => .ok (source, k)

/-- multiLoop models the `while maxComponents > 1` loop of lines 161 to 188
with an explicit iteration bound (the entry point passes `maxComponents.toNat`,
which the decrements can never exhaust before the guard fails): on an
exception, re-raise when `fallback` is false, else decrement and retry. -/
def multiLoop (env : Env) (sym mono : Bool) (th : ℚ) (ed : Option Int)
    (shifting dg fb : Bool) : Nat → Int → Except PyErr (Option MultiSrc × Int)
  | 0, k => .ok (none, k)
  | n + 1, k =>
    if 1 < k then
      match multiAttempt env sym mono th ed shifting dg k with
      | .ok (s, kAccept) => .ok (some s, kAccept)
      | .error e =>
        if fb then multiLoop env sym mono th ed shifting dg fb n (k - 1) else .error e
    else .ok (none, k)

/-- singleAttempt models the `if maxComponents == 1` try block (lines 191 to
204): construct an `ExtendedSource`, raise `ValueError` when the validity gate
fails, else downgrade to a point source when `source.bbox.shape[1:]` is at
most 16 per side, else run the in-branch edge test which sets
`source.shifting = True`. -/
def singleAttempt (env : Env) (sym mono : Bool) (th mg : ℚ) (ed : Option Int)
    (shifting dg : Bool) : Except PyErr (ExtSrc × Int) :=
  match env.extended sym mono th mg shifting with
  | .error e => .error e
  | .ok source =>
    if singleGateFail source then .error .valueError
    else if dg && (source.bboxShape.drop 1).all (· ≤ 16) then
      .ok (source, 0)
    else
      match hasEdgeFlux (.extended source) ed with
      | .error e => .error e
      | .ok true => .ok ({ source with shifting := true }, 1)
      | .ok false => .ok (source, 1)

/-- singleStage wraps `singleAttempt` with the surrounding control flow of
lines 190 to 210: the branch only runs when `maxComponents == 1`, and an
exception decrements `maxComponents` when `fallback` is true, leaving
`source` at whatever the multi loop bound (possibly nothing). -/
def singleStage (env : Env) (sym mono : Bool) (th mg : ℚ) (ed : Option Int)
    (shifting dg fb : Bool) (s0 : Option MultiSrc) (k1 : Int) :
    Except PyErr (Option Source × Int) :=
  if k1 = 1 then
    match singleAttempt env sym mono th mg ed shifting dg with
    | .ok (s, k2) => .ok (some (Source.extended s), k2)
    | .error e => if fb then .ok (s0.map Source.multi, k1 - 1) else .error e
  else .ok (s0.map Source.multi, k1)

/-- finishSource models lines 220 to 235: the final edge test; on edge flux,
a non point source built without shifting is rebuilt by the recursive call
(`rebuild`), otherwise `source.isEdge` records the outcome. -/
def finishSource (rebuild : Except PyErr (Option Source)) (src : Source)
    (ed : Option Int) (shifting : Bool) : Except PyErr (Option Source) :=
  match hasEdgeFlux src ed with
  | .error e => .error e
  | .ok true =>
    if !src.isPoint && !shifting then rebuild
    else .ok (some (setIsEdge src true))
  | .ok false => .ok (some (setIsEdge src false))

/-- pointStage models lines 212 to 235: when `maxComponents == 0` a
`PointSource` replaces whatever was built (its construction failure returns
`None` for the whole call, regardless of `fallback`); referencing the
unbound `source` when no branch ever bound it raises (`nameError`); then the
final edge test runs. -/
def pointStage (env : Env) (rebuild : Int → Except PyErr (Option Source))
    (ed : Option Int) (shifting : Bool) (s1 : Option Source) (k2 : Int) :
    Except PyErr (Option Source) :=
  if k2 = 0 then
    match env.point with
    | .error _ => .ok none
    | .ok p => finishSource (rebuild k2) (.point p) ed shifting
  else
    match s1 with
    | none => .error .nameError
    | some src => finishSource (rebuild k2) src ed shifting

/-- initSourceFuel is `initSource` with an explicit recursion depth: fuel 0
stands for Python exhausting its recursion limit (`RecursionError`).  The
recursive rebuild on line 228 forwards `symmetric`, `monotonic`, `thresh`,
the current `maxComponents`, `edgeDistance` and `shifting=True`, leaving
`downgrade=True`, `fallback=True`, `minGradient=0` at their defaults. -/
def initSourceFuel (env : Env) : Nat → Bool → Bool → ℚ → Int → Option Int →
    Bool → Bool → Bool → ℚ → Except PyErr (Option Source)
  | 0, _, _, _, _, _, _, _, _, _ => .error .recursionError
  | fuel + 1, sym, mono, th, maxC, ed, shifting, dg, fb, mg =>
    match multiLoop env sym mono th ed shifting dg fb maxC.toNat maxC with
    | .error e => .error e
    | .ok (s0, k1) =>
      match singleStage env sym mono th mg ed shifting dg fb s0 k1 with
      | .error e => .error e
      | .ok (s1, k2) =>
        pointStage env
          (fun kk => initSourceFuel env fuel sym mono th kk ed true true true 0)
          ed shifting s1 k2

/-- initSource models `initSource(frame, center, observation, symmetric,
monotonic, thresh, maxComponents, edgeDistance, shifting, downgrade,
fallback, minGradient)` from `initialization/source.py` lines 93 to 235.
Depth 2 is exact: the rebuild passes `shifting=True`, under which the
rebuild branch is unreachable (proved below). -/
def initSource (env : Env) (sym mono : Bool) (th : ℚ) (maxC : Int)
    (ed : Option Int) (shifting dg fb : Bool) (mg : ℚ) :
    Except PyErr (Option Source) :=
  initSourceFuel env 2 sym mono th maxC ed shifting dg fb mg

/-- initAllSourcesGo models the loop of `initAllSources` (lines 77 to 90):
`for k, center in enumerate(centers)`, collecting non-`None` models in order
and recording the index of every `None`. -/
def initAllSourcesGo {C : Type} (envOf : C → Env) (sym mono : Bool) (th : ℚ)
    (maxC : Int) (ed : Option Int) (shifting dg fb : Bool) (mg : ℚ) :
    List C → Nat → Except PyErr (List Source × List Nat)
  | [], _ => .ok ([], [])
  | c :: rest, k =>
    match initSource (envOf c) sym mono th maxC ed shifting dg fb mg with
    | .error e => .error e
    | .ok osrc =>
      match initAllSourcesGo envOf sym mono th maxC ed shifting dg fb mg rest (k + 1) with
      | .error e => .error e
      | .ok (srcs, skipped) =>
        match osrc with
        | some s => .ok (s :: srcs, skipped)
        | none => .ok (srcs, k :: skipped)

/-- initAllSources models `initAllSources` from `initialization/source.py`
lines 54 to 90; the per center constructor environment is `envOf`. -/
def initAllSources {C : Type} (envOf : C → Env) (sym mono : Bool) (th : ℚ)
    (maxC : Int) (ed : Option Int) (shifting dg fb : Bool) (mg : ℚ)
    (centers : List C) : Except PyErr (List Source × List Nat) :=
  initAllSourcesGo envOf sym mono th maxC ed shifting dg fb mg centers 0

/-- Data models the namedtuple `Data(images, wcss, psfs, channels)` from
`initialization/detection.py`; image arrays and coordinate systems are kept
abstract since every operation on them is an external library call. -/
structure Data (Arr W : Type) where
  images : Arr
  wcss : W
  psfs : Arr
  channels : List Nat

/-- Datas models the two accepted shapes of the `datas` argument of
`makeCatalog`: a bare numpy array, or a (low resolution, high resolution)
pair of `Data`. -/
inductive Datas (Arr W : Type) where
  | arr : Arr → Datas Arr W
  | pair : Data Arr W → Data Arr W → Datas Arr W

/-- DetEnv models the external numpy / scarlet / sep operations that
`makeCatalog` and `interpolate` invoke, one field per call site expression:
`arangePair` is `(np.arange(x.shape[1]), np.arange(x.shape[1]))`,
`convertCoords` is `scarlet.resampling.convert_coordinates`,
`sincInterpAll` is the loop collecting
`scarlet.interpolation.sinc_interp(image[None], coord_hr, coord_lr)[0].T`,
`normSum12` is `x / np.sum(x, axis=(1, 2))[:, None, None]`,
`sumAxis0` is `np.sum(x, axis=0)`, `addArr` is `x + y`,
`mulSumAll` is `x * np.sum(y)`, `ndim` is `np.size(x.shape)`,
`meanAxis0` is `x.mean(axis=0)`,
`starletCoeff4` is `Starlet(x, lvl=4).coefficients`,
`zeroCoarse` is the assignment `c[:, -1, :, :] = 0`,
`starletRecon` is `Starlet(coefficients=c).image`,
`starletCoeff` is `Starlet(x).coefficients`,
`sumFirst3` is `c[0][0] + c[0][1] + c[0][2]`,
`background` is `sep.Background(x).globalrms`,
`extract` is `sep.extract(x, lvl, err=...)`, and
`mad` is `mad_wavelet(x)`. -/
structure DetEnv (Arr W Crd Cat : Type) where
  arangePair : Arr → Crd
  convertCoords : Crd → W → W → Crd
  sincInterpAll : Arr → Crd → Crd → Arr
  normSum12 : Arr → Arr
  sumAxis0 : Arr → Arr
  addArr : Arr → Arr → Arr
  mulSumAll : Arr → Arr → Arr
  ndim : Arr → Nat
  meanAxis0 : Arr → Arr
  starletCoeff4 : Arr → Arr
  zeroCoarse : Arr → Arr
  starletRecon : Arr → Arr
  starletCoeff : Arr → Arr
  sumFirst3 : Arr → Arr
  background : Arr → ℚ
  extract : Arr → ℚ → ℚ → Cat
  mad : Arr → Arr

/-- interpolate models `interpolate(data_lr, data_hr)` from
`initialization/detection.py` lines 10 to 32. -/
def interpolate {Arr W Crd Cat : Type} (env : DetEnv Arr W Crd Cat)
    (data_lr data_hr : Data Arr W) : Arr :=
  let coord_lr0 := env.arangePair data_lr.images
  let coord_hr := env.arangePair data_hr.images
  let coord_lr := env.convertCoords coord_lr0 data_lr.wcss data_hr.wcss
  env.sincInterpAll data_lr.images coord_hr coord_lr

/-- makeCatalog models `makeCatalog(datas, lvl, wave)` from
`initialization/detection.py` lines 35 to 96; the noise estimate is a bare
array in the single stack case and a list (one entry per stack) in the pair
case, exactly as in the code. -/
def makeCatalog {Arr W Crd Cat : Type} (env : DetEnv Arr W Crd Cat)
    (datas : Datas Arr W) (lvl : ℚ) (wave : Bool) : Cat × (Arr ⊕ List Arr) :=
  let detect_image :=
    match datas with
    | .arr d => env.sumAxis0 (env.normSum12 d)
    | .pair data_lr data_hr =>
      let interp := interpolate env data_lr data_hr
      let interpN := env.normSum12 interp
      let hr_images := env.normSum12 data_hr.images
      let di := env.addArr (env.sumAxis0 interpN) (env.sumAxis0 hr_images)
      env.mulSumAll di data_hr.images
  let detect :=
    if env.ndim detect_image = 3 then
      if wave then
        env.starletRecon (env.zeroCoarse (env.starletCoeff4 (env.meanAxis0 detect_image)))
      else env.meanAxis0 detect_image
    else
      if wave then env.sumFirst3 (env.starletCoeff detect_image)
      else detect_image
  let bkg := env.background detect
  let catalog := env.extract detect lvl bkg
  let bg_rms :=
    match datas with
    | .arr d => Sum.inl (env.mad d)
    | .pair data_lr data_hr => Sum.inr [env.mad data_lr.images, env.mad data_hr.images]
  (catalog, bg_rms)

/-- specValidComp states, following the specification wording, that one
component has a spectral vector that is finite, non-negative and not all
zero, and a finite morphology. -/
def specValidComp (sed : List FP) (morph : List (List FP)) : Bool :=
  sed.all FP.isFinite
  && sed.all (fun v => !v.le0 || v.isZero)
  && sed.any (fun v => !(decide (v = FP.fin 0)))
  && morph.all (fun row => row.all FP.isFinite)

/-- specValid states the validity condition of the claim (spec wording, not
the code): every component of the model has a finite, non-negative, not all
zero spectral vector and a finite morphology. -/
def specValid : Source → Bool
  | .multi s => s.components.all fun c => specValidComp c.sed c.morph
  | .extended s => specValidComp s.sed s.morph
  | .point s => specValidComp s.sed s.morph

/-- specEdgeFlux states, following the claim wording, that the band image
has nonzero flux within `d` pixels of one of the four borders: in the first
`d` rows, the last `d` rows, the first `d` columns or the last `d` columns. -/
def specEdgeFlux (img : List (List FP)) (d : Nat) : Bool :=
  (List.range img.length).any fun r =>
    (List.range (img.getD r []).length).any fun c =>
      !(decide ((img.getD r []).getD c (FP.fin 0) = FP.fin 0))
      && (decide (r < d) || decide (img.length ≤ r + d)
          || decide (c < d) || decide ((img.getD r []).length ≤ c + d))

/-- codeGate states the validity condition the code actually enforces on a
returned model: the multi and single component gates for the respective
branches, and nothing for the point source branch. -/
def codeGate : Source → Bool
  | .multi s => !multiGateFail s
  | .extended s => !singleGateFail s
  | .point _ => true

/-- mC1 is a multi component source in a small (4 by 4 spatial) bounding
box that passes the validity gate. -/
def mC1 : MultiSrc :=
  { components := [⟨[.fin 1], [[.fin 1]], [1, 4, 4]⟩], model := [[[.fin 1]]] }

/-- pC1 is a point source whose rendered 3 by 3 model has all its flux in
the central pixel, so its final edge test is negative. -/
def pC1 : PointSrc :=
  { sed := [.fin 1],
    model := [[[.fin 0, .fin 0, .fin 0], [.fin 0, .fin 1, .fin 0], [.fin 0, .fin 0, .fin 0]]] }

/-- envC1 is an environment whose multi component constructor succeeds with
`mC1` and whose point constructor succeeds with `pC1`. -/
def envC1 : Env :=
  { multi := fun _ _ _ _ => .ok mC1,
    extended := fun _ _ _ _ _ => .error .valueError,
    point := .ok pC1 }

/-- C2 single component source passing the coded gate although its spectral
vector has a negative entry. -/
def sC2 : ExtSrc :=
  { sed := [.fin (-1), .fin 2], morph := [[.fin 1]], bboxShape := [2, 50, 50], model := [] }

/-- envC2a is an environment whose single component constructor succeeds
with `sC2`. -/
def envC2a : Env :=
  { multi := fun _ _ _ _ => .error .valueError,
    extended := fun _ _ _ _ _ => .ok sC2,
    point := .error .valueError }

/-- pC2 is a point source whose spectral vector is identically zero. -/
def pC2 : PointSrc := { sed := [.fin 0], model := [] }

/-- envC2b is an environment whose point constructor succeeds with `pC2`. -/
def envC2b : Env :=
  { multi := fun _ _ _ _ => .error .valueError,
    extended := fun _ _ _ _ _ => .error .valueError,
    point := .ok pC2 }

/-- envC3 is an environment whose three constructors all fail. -/
def envC3 : Env :=
  { multi := fun _ _ _ _ => .error .valueError,
    extended := fun _ _ _ _ _ => .error .valueError,
    point := .error .valueError }

/-- imgC5 is a 5 by 5 single band image whose only nonzero pixel sits at
row 1, column 2: within 2 pixels of the top border, but not in row 0, the
last row, or the first or last two columns. -/
def imgC5 : List (List FP) :=
  [[.fin 0, .fin 0, .fin 0, .fin 0, .fin 0],
   [.fin 0, .fin 0, .fin 1, .fin 0, .fin 0],
   [.fin 0, .fin 0, .fin 0, .fin 0, .fin 0],
   [.fin 0, .fin 0, .fin 0, .fin 0, .fin 0],
   [.fin 0, .fin 0, .fin 0, .fin 0, .fin 0]]

/-- srcC5 is a single component source rendering to `imgC5`. -/
def srcC5 : Source :=
  .extended { sed := [.fin 1], morph := [[.fin 1]], bboxShape := [1, 5, 5], model := [imgC5] }

/-- mC7 is a valid multi component source in a large bounding box, so the
in-branch edge test is reached. -/
def mC7 : MultiSrc :=
  { components := [⟨[.fin 1], [[.fin 1]], [1, 30, 30]⟩], model := [[[.fin 1]]] }

/-- envC7 is an environment whose multi component constructor succeeds with
`mC7` and whose other constructors fail. -/
def envC7 : Env :=
  { multi := fun _ _ _ _ => .ok mC7,
    extended := fun _ _ _ _ _ => .error .valueError,
    point := .error .valueError }

/-- mC8 is a valid multi component source whose bounding box sides are
between 9 and 16 pixels, so the downgrade caps the count at one. -/
def mC8 : MultiSrc :=
  { components := [⟨[.fin 1], [[.fin 1]], [1, 12, 12]⟩], model := [[[.fin 1]]] }

/-- sC8 is a valid single component source in a large bounding box with no
edge flux. -/
def sC8 : ExtSrc :=
  { sed := [.fin 1], morph := [[.fin 1]], bboxShape := [1, 20, 20], model := [[[.fin 1]]] }

/-- envC8 is an environment in which both the multi and the single
component constructors succeed with valid models. -/
def envC8 : Env :=
  { multi := fun _ _ _ _ => .ok mC8,
    extended := fun _ _ _ _ _ => .ok sC8,
    point := .error .valueError }

/-- pC7 is a point source used to exhibit the final assertion failure. -/
def pC7 : PointSrc := { sed := [.fin 1], model := [[[.fin 1]]] }

/-- envC7w is an environment whose multi constructor succeeds with `mC7`,
whose extended constructor fails, and whose point constructor succeeds. -/
def envC7w : Env :=
  { multi := fun _ _ _ _ => .ok mC7,
    extended := fun _ _ _ _ _ => .error .valueError,
    point := .ok pC7 }

/-- mW8 is a valid multi component source in a large bounding box that
witnesses the first-valid-model-kept theorem. -/
def mW8 : MultiSrc :=
  { components := [⟨[.fin 1], [[.fin 1]], [1, 30, 30]⟩], model := [[[.fin 1]]] }

/-- envW8 is an environment whose multi constructor succeeds with `mW8`. -/
def envW8 : Env :=
  { multi := fun _ _ _ _ => .ok mW8,
    extended := fun _ _ _ _ _ => .error .valueError,
    point := .error .valueError }

/-- sW10 is a valid single component source in a large bounding box whose
rendered model has flux in the first row. -/
def sW10 : ExtSrc :=
  { sed := [.fin 1], morph := [[.fin 1]], bboxShape := [1, 20, 20],
    model := [[[.fin 1, .fin 0, .fin 0], [.fin 0, .fin 0, .fin 0], [.fin 0, .fin 0, .fin 0]]] }

/-- envW10 is an environment whose extended constructor succeeds with
`sW10`. -/
def envW10 : Env :=
  { multi := fun _ _ _ _ => .error .valueError,
    extended := fun _ _ _ _ _ => .ok sW10,
    point := .error .valueError }

/-- pW4 is a point source used by the batch driver witness. -/
def pW4 : PointSrc := { sed := [.fin 1], model := [] }

/-- envW4T is an environment whose point constructor succeeds with `pW4`. -/
def envW4T : Env :=
  { multi := fun _ _ _ _ => .error .valueError,
    extended := fun _ _ _ _ _ => .error .valueError,
    point := .ok pW4 }

/-- envW4F is an environment whose three constructors all fail. -/
def envW4F : Env :=
  { multi := fun _ _ _ _ => .error .valueError,
    extended := fun _ _ _ _ _ => .error .valueError,
    point := .error .valueError }

/-- envOfW4 supplies `envW4T` for the first center and `envW4F` for the
second. -/
def envOfW4 : Bool → Env := fun b => if b then envW4T else envW4F

/-- detEnvW is a small concrete detection backend over natural number
arrays. -/
def detEnvW : DetEnv Nat Unit Unit Nat :=
  { arangePair := fun _ => ()
    convertCoords := fun _ _ _ => ()
    sincInterpAll := fun a _ _ => a
    normSum12 := fun a => a
    sumAxis0 := fun a => a
    addArr := fun a b => a + b
    mulSumAll := fun a b => a * b
    ndim := fun _ => 2
    meanAxis0 := fun a => a
    starletCoeff4 := fun a => a
    zeroCoarse := fun a => a
    starletRecon := fun a => a
    starletCoeff := fun a => a
    sumFirst3 := fun a => a + 3
    background := fun _ => 0
    extract := fun a _ _ => a
    mad := fun a => a }

lemma finishSource_shifting_true (r r' : Except PyErr (Option Source)) (src : Source)
    (ed : Option Int) : finishSource r src ed true = finishSource r' src ed true := by
  unfold finishSource
  cases hasEdgeFlux src ed with
  | error e => rfl
  | ok b => cases b <;> simp [Source.isPoint]

lemma pointStage_shifting_true (env : Env) (rb rb' : Int → Except PyErr (Option Source))
    (ed : Option Int) (s1 : Option Source) (k2 : Int) :
    pointStage env rb ed true s1 k2 = pointStage env rb' ed true s1 k2 := by
  unfold pointStage
  split
  · cases env.point with
    | error e => rfl
    | ok p => exact finishSource_shifting_true _ _ _ _
  · cases s1 with
    | none => rfl
    | some s => exact finishSource_shifting_true _ _ _ _

lemma initSourceFuel_succ (env : Env) (f : Nat) (sym mono : Bool) (th : ℚ)
    (maxC : Int) (ed : Option Int) (shifting dg fb : Bool) (mg : ℚ) :
    initSourceFuel env (f + 1) sym mono th maxC ed shifting dg fb mg
      = (match multiLoop env sym mono th ed shifting dg fb maxC.toNat maxC with
        | .error e => .error e
        | .ok (s0, k1) =>
          match singleStage env sym mono th mg ed shifting dg fb s0 k1 with
          | .error e => .error e
          | .ok (s1, k2) =>
            pointStage env
              (fun kk => initSourceFuel env f sym mono th kk ed true true true 0)
              ed shifting s1 k2) := rfl

lemma initSourceFuel_shifting_true (env : Env) (f : Nat) (sym mono : Bool) (th : ℚ)
    (maxC : Int) (ed : Option Int) (dg fb : Bool) (mg : ℚ) :
    initSourceFuel env (f + 1) sym mono th maxC ed true dg fb mg
      = initSourceFuel env 1 sym mono th maxC ed true dg fb mg := by
  rw [initSourceFuel_succ, show (1 : Nat) = 0 + 1 from rfl, initSourceFuel_succ]
  cases multiLoop env sym mono th ed true dg fb maxC.toNat maxC with
  | error e => rfl
  | ok p =>
    obtain ⟨s0, k1⟩ := p
    dsimp only
    cases singleStage env sym mono th mg ed true dg fb s0 k1 with
    | error e => rfl
    | ok q =>
      obtain ⟨s1, k2⟩ := q
      dsimp only
      exact pointStage_shifting_true _ _ _ _ _ _

lemma initSourceFuel_two (env : Env) (f : Nat) (sym mono : Bool) (th : ℚ)
    (maxC : Int) (ed : Option Int) (shifting dg fb : Bool) (mg : ℚ) :
    initSourceFuel env (f + 2) sym mono th maxC ed shifting dg fb mg
      = initSourceFuel env 2 sym mono th maxC ed shifting dg fb mg := by
  have hfun : (fun kk => initSourceFuel env (f + 1) sym mono th kk ed true true true 0)
      = (fun kk => initSourceFuel env 1 sym mono th kk ed true true true 0) :=
    funext fun kk => initSourceFuel_shifting_true env f sym mono th kk ed true true 0
  rw [show f + 2 = (f + 1) + 1 from rfl, initSourceFuel_succ,
    show (2 : Nat) = 1 + 1 from rfl, initSourceFuel_succ, hfun]

/-- C6: the edge re-initialization rebuild happens at most once.  First
conjunct: a call with `shifting=True` never consumes recursion depth (one
unit of fuel already suffices, whatever extra fuel is available), i.e. the
recursive rebuild, which always passes `shifting=True`, can never trigger a
further rebuild.  Second conjunct: any recursion depth at least 2 computes
exactly `initSource`, so the recursion depth is bounded by 2 and the
function terminates. -/
theorem C6_rebuild_bounded (env : Env) (sym mono : Bool) (th : ℚ) (maxC : Int)
    (ed : Option Int) (shifting dg fb : Bool) (mg : ℚ) (n : Nat) :
    initSourceFuel env (n + 1) sym mono th maxC ed true dg fb mg
      = initSourceFuel env 1 sym mono th maxC ed true dg fb mg
    ∧ initSourceFuel env (n + 2) sym mono th maxC ed shifting dg fb mg
      = initSource env sym mono th maxC ed shifting dg fb mg :=
  ⟨initSourceFuel_shifting_true env n sym mono th maxC ed dg fb mg,
    initSourceFuel_two env n sym mono th maxC ed shifting dg fb mg⟩

lemma multiGateFail_shift (s : MultiSrc) :
    multiGateFail { s with shifting := true } = multiGateFail s := rfl

lemma multiAttempt_ok_gate (env : Env) (sym mono : Bool) (th : ℚ) (ed : Option Int)
    (shifting dg : Bool) (k : Int) (s : MultiSrc) (kA : Int)
    (h : multiAttempt env sym mono th ed shifting dg k = .ok (s, kA)) :
    multiGateFail s = false := by
  unfold multiAttempt at h
  split at h
  · cases h
  · rename_i source hm
    split at h
    · cases h
    · rename_i hg
      split at h
      · simp only [Except.ok.injEq, Prod.mk.injEq] at h
        obtain ⟨rfl, -⟩ := h
        simpa using hg
      · split at h
        · simp only [Except.ok.injEq, Prod.mk.injEq] at h
          obtain ⟨rfl, -⟩ := h
          simpa using hg
        · split at h
          · cases h
          · simp only [Except.ok.injEq, Prod.mk.injEq] at h
            obtain ⟨rfl, -⟩ := h
            rw [multiGateFail_shift]
            simpa using hg
          · simp only [Except.ok.injEq, Prod.mk.injEq] at h
            obtain ⟨rfl, -⟩ := h
            simpa using hg

lemma multiLoop_succ (env : Env) (sym mono : Bool) (th : ℚ) (ed : Option Int)
    (shifting dg fb : Bool) (f : Nat) (k : Int) :
    multiLoop env sym mono th ed shifting dg fb (f + 1) k
      = (if 1 < k then
          match multiAttempt env sym mono th ed shifting dg k with
          | .ok (s, kAccept) => .ok (some s, kAccept)
          | .error e =>
            if fb then multiLoop env sym mono th ed shifting dg fb f (k - 1)
            else .error e
        else .ok (none, k)) := rfl

lemma multiLoop_some (env : Env) (sym mono : Bool) (th : ℚ) (ed : Option Int)
    (shifting dg fb : Bool) :
    ∀ (f : Nat) (k : Int) (m : MultiSrc) (kA : Int),
      multiLoop env sym mono th ed shifting dg fb f k = .ok (some m, kA) →
      ∃ kk, multiAttempt env sym mono th ed shifting dg kk = .ok (m, kA)
  | 0, k, m, kA, h => by cases h
  | f + 1, k, m, kA, h => by
    rw [multiLoop_succ] at h
    by_cases hk : 1 < k
    · rw [if_pos hk] at h
      cases hAtt : multiAttempt env sym mono th ed shifting dg k with
      | ok p =>
        obtain ⟨s, kx⟩ := p
        rw [hAtt] at h
        simp only [Except.ok.injEq, Prod.mk.injEq, Option.some.injEq] at h
        obtain ⟨rfl, rfl⟩ := h
        exact ⟨k, hAtt⟩
      | error e =>
        rw [hAtt] at h
        dsimp only at h
        by_cases hfb : fb
        · rw [if_pos hfb] at h
          exact multiLoop_some env sym mono th ed shifting dg fb f (k - 1) m kA h
        · rw [if_neg hfb] at h
          cases h
    · rw [if_neg hk] at h
      cases h

lemma singleAttempt_ok_gate (env : Env) (sym mono : Bool) (th mg : ℚ) (ed : Option Int)
    (shifting dg : Bool) (s : ExtSrc) (k2 : Int)
    (h : singleAttempt env sym mono th mg ed shifting dg = .ok (s, k2)) :
    singleGateFail s = false := by
  unfold singleAttempt at h
  split at h
  · cases h
  · rename_i source hm
    split at h
    · cases h
    · rename_i hg
      split at h
      · simp only [Except.ok.injEq, Prod.mk.injEq] at h
        obtain ⟨rfl, -⟩ := h
        simpa using hg
      · split at h
        · cases h
        · simp only [Except.ok.injEq, Prod.mk.injEq] at h
          obtain ⟨rfl, -⟩ := h
          show singleGateFail source = false
          simpa using hg
        · simp only [Except.ok.injEq, Prod.mk.injEq] at h
          obtain ⟨rfl, -⟩ := h
          simpa using hg

lemma singleStage_ok_some (env : Env) (sym mono : Bool) (th mg : ℚ) (ed : Option Int)
    (shifting dg fb : Bool) (s0 : Option MultiSrc) (k1 : Int) (s : Source) (k2 : Int)
    (h : singleStage env sym mono th mg ed shifting dg fb s0 k1 = .ok (some s, k2)) :
    (∃ es, s = .extended es ∧ singleGateFail es = false)
    ∨ (∃ m, s0 = some m ∧ s = .multi m) := by
  unfold singleStage at h
  split at h
  · cases hAtt : singleAttempt env sym mono th mg ed shifting dg with
    | ok p =>
      obtain ⟨es, kx⟩ := p
      rw [hAtt] at h
      simp only [Except.ok.injEq, Prod.mk.injEq, Option.some.injEq] at h
      obtain ⟨rfl, rfl⟩ := h
      exact .inl ⟨es, rfl, singleAttempt_ok_gate env sym mono th mg ed shifting dg es kx hAtt⟩
    | error e =>
      rw [hAtt] at h
      dsimp only at h
      split at h
      · cases s0 with
        | none => cases h
        | some m =>
          simp only [Option.map_some', Except.ok.injEq, Prod.mk.injEq, Option.some.injEq] at h
          obtain ⟨rfl, -⟩ := h
          exact .inr ⟨m, rfl, rfl⟩
      · cases h
  · cases s0 with
    | none => cases h
    | some m =>
      simp only [Option.map_some', Except.ok.injEq, Prod.mk.injEq, Option.some.injEq] at h
      obtain ⟨rfl, -⟩ := h
      exact .inr ⟨m, rfl, rfl⟩

lemma finishSource_ok_some (rb : Except PyErr (Option Source)) (src : Source)
    (ed : Option Int) (shifting : Bool) (out : Source)
    (h : finishSource rb src ed shifting = .ok (some out)) :
    (∃ b, out = setIsEdge src b) ∨ rb = .ok (some out) := by
  unfold finishSource at h
  split at h
  · cases h
  · split at h
    · exact .inr h
    · simp only [Except.ok.injEq, Option.some.injEq] at h
      exact .inl ⟨true, h.symm⟩
  · simp only [Except.ok.injEq, Option.some.injEq] at h
    exact .inl ⟨false, h.symm⟩

lemma pointStage_ok_some (env : Env) (rb : Int → Except PyErr (Option Source))
    (ed : Option Int) (shifting : Bool) (s1 : Option Source) (k2 : Int) (out : Source)
    (h : pointStage env rb ed shifting s1 k2 = .ok (some out)) :
    (∃ p b, out = setIsEdge (.point p) b)
    ∨ (∃ s b, s1 = some s ∧ out = setIsEdge s b)
    ∨ rb k2 = .ok (some out) := by
  unfold pointStage at h
  split at h
  · cases hp : env.point with
    | error e => rw [hp] at h; cases h
    | ok p =>
      rw [hp] at h
      rcases finishSource_ok_some _ _ _ _ _ h with ⟨b, rfl⟩ | hr
      · exact .inl ⟨p, b, rfl⟩
      · exact .inr (.inr hr)
  · cases s1 with
    | none => cases h
    | some s =>
      rcases finishSource_ok_some _ _ _ _ _ h with ⟨b, rfl⟩ | hr
      · exact .inr (.inl ⟨s, b, rfl, rfl⟩)
      · exact .inr (.inr hr)

lemma codeGate_setIsEdge (s : Source) (b : Bool) : codeGate (setIsEdge s b) = codeGate s := by
  cases s <;> rfl

lemma initSourceFuel_gate (env : Env) (sym mono : Bool) (th : ℚ) :
    ∀ (fuel : Nat) (maxC : Int) (ed : Option Int) (shifting dg fb : Bool) (mg : ℚ)
      (src : Source),
      initSourceFuel env fuel sym mono th maxC ed shifting dg fb mg = .ok (some src) →
      codeGate src = true
  | 0, maxC, ed, shifting, dg, fb, mg, src, h => by cases h
  | fuel + 1, maxC, ed, shifting, dg, fb, mg, src, h => by
    rw [initSourceFuel_succ] at h
    cases hml : multiLoop env sym mono th ed shifting dg fb maxC.toNat maxC with
    | error e => rw [hml] at h; cases h
    | ok p =>
      obtain ⟨s0, k1⟩ := p
      rw [hml] at h
      dsimp only at h
      cases hss : singleStage env sym mono th mg ed shifting dg fb s0 k1 with
      | error e => rw [hss] at h; cases h
      | ok q =>
        obtain ⟨s1, k2⟩ := q
        rw [hss] at h
        dsimp only at h
        rcases pointStage_ok_some _ _ _ _ _ _ _ h with ⟨pp, b, rfl⟩ | ⟨s, b, hs1, rfl⟩ | hrb
        · rw [codeGate_setIsEdge]; rfl
        · rw [codeGate_setIsEdge]
          subst hs1
          rcases singleStage_ok_some env sym mono th mg ed shifting dg fb s0 k1 s k2 hss
            with ⟨es, rfl, hgate⟩ | ⟨m, hs0, rfl⟩
          · show (!singleGateFail es) = true
            simp [hgate]
          · subst hs0
            obtain ⟨kk, hAtt⟩ :=
              multiLoop_some env sym mono th ed shifting dg fb maxC.toNat maxC m k1 hml
            show (!multiGateFail m) = true
            simp [multiAttempt_ok_gate env sym mono th ed shifting dg kk m k1 hAtt]
        · exact initSourceFuel_gate env sym mono th fuel k2 ed true true true 0 src hrb

/-- C1 counterexample: with `downgrade` enabled and `maxComponents = 2`, the
multi component model `mC1` is constructed, passes the validity gate, and
all its bounding boxes are at most 8 pixels per spatial side — yet the call
returns a point source model built afterwards in the same call, so the
accepted multi component model is discarded, contrary to the claim. -/
theorem C1_counterexample :
    envC1.multi false true 1 false = .ok mC1
    ∧ multiGateFail mC1 = false
    ∧ (mC1.components.all fun c => (c.bboxShape.drop 1).all (· ≤ 8)) = true
    ∧ initSource envC1 false true 1 2 (some 1) false true true 0
        = .ok (some (Source.point { pC1 with isEdge := false })) :=
  ⟨rfl, rfl, rfl, rfl⟩

/-- C2 counterexample: a single component model whose spectral vector has a
negative entry passes the coded gate and is returned (first two conjuncts),
and the point source branch returns a model whose spectral vector is all
zero (last two conjuncts); both returned models violate the validity
condition stated by the claim. -/
theorem C2_counterexample :
    initSource envC2a false true 1 1 none false false true 0
      = .ok (some (Source.extended { sC2 with isEdge := false }))
    ∧ specValid (Source.extended { sC2 with isEdge := false }) = false
    ∧ initSource envC2b false true 1 0 none false true true 0
        = .ok (some (Source.point { pC2 with isEdge := false }))
    ∧ specValid (Source.point { pC2 with isEdge := false }) = false :=
  ⟨rfl, rfl, rfl, rfl⟩

/-- C3 counterexample: with `fallback=False` and `maxComponents = 0`, the
point source construction failure is not raised to the caller: the call
returns `None`, contrary to the claim. -/
theorem C3_counterexample :
    initSource envC3 false true 1 0 none false true false 0 = .ok none := rfl

/-- C5: evaluation of the code at the failing input.  `hasEdgeFlux` with
`edgeDistance = 2` returns `False` on a model whose only flux sits at row 1
of a 5 by 5 image, although that pixel is within 2 pixels of the top border
(second conjunct, the property claimed and stated in the function
docstring). -/
theorem C5_offbyone :
    hasEdgeFlux srcC5 (some 2) = .ok false ∧ specEdgeFlux imgC5 2 = true :=
  ⟨rfl, rfl⟩

/-- C7 counterexample: with `edgeDistance = 0` the assertion failure raised
inside the multi component try block (first conjunct) is caught by the
fallback loop and converted into decrements; after the remaining stages
fail the call returns `None` — the configuration error is never raised to
the caller, contrary to the claim. -/
theorem C7_counterexample :
    hasEdgeFlux (.multi mC7) (some 0) = .error .assertionError
    ∧ initSource envC7 false true 1 2 (some 0) false false true 0 = .ok none :=
  ⟨rfl, rfl⟩

/-- C8 counterexample: the multi component model `mC8` is constructed and
passes the validity gate (first two conjuncts), yet with `downgrade`
enabled the call returns a single component model: a less expressive class
was tried, and kept, after a validity success, contrary to the claim that
expressiveness is only reduced on outright validity failure. -/
theorem C8_counterexample :
    envC8.multi false true 1 false = .ok mC8
    ∧ multiGateFail mC8 = false
    ∧ initSource envC8 false true 1 2 none false true true 0
        = .ok (some (Source.extended { sC8 with isEdge := false })) :=
  ⟨rfl, rfl, rfl⟩

/-- C2 (amended): every model returned by `initSource` passed the gate the
code actually applies — the multi and single component validity tests for
models from those branches, and no test at all for the point source
branch. -/
theorem C2_code_gate (env : Env) (sym mono : Bool) (th : ℚ) (maxC : Int)
    (ed : Option Int) (shifting dg fb : Bool) (mg : ℚ) (src : Source)
    (h : initSource env sym mono th maxC ed shifting dg fb mg = .ok (some src)) :
    codeGate src = true :=
  initSourceFuel_gate env sym mono th 2 maxC ed shifting dg fb mg src h

/-- C2 witness: the gate theorem applied at a concrete accepted model. -/
theorem C2_witness : codeGate (Source.extended { sC2 with isEdge := false }) = true :=
  C2_code_gate envC2a false true 1 1 none false false true 0
    (Source.extended { sC2 with isEdge := false }) rfl

/-- C1 (amended): with `downgrade` enabled, an accepted multi component
model all of whose bounding boxes are at most 8 pixels per spatial side is
discarded in the same call: the component count is set to 0 and the call
returns the point source model built afterwards (with its final edge flag),
whenever the point constructor succeeds. -/
theorem C1_downgrade_replaces (env : Env) (sym mono : Bool) (th : ℚ) (k : Int)
    (ed : Option Int) (shifting fb : Bool) (mg : ℚ) (m : MultiSrc) (p : PointSrc)
    (b : Bool)
    (hk : 1 < k)
    (hm : env.multi sym mono th shifting = .ok m)
    (hg : multiGateFail m = false)
    (h8 : (m.components.all fun c => (c.bboxShape.drop 1).all (· ≤ 8)) = true)
    (hp : env.point = .ok p)
    (he : hasEdgeFlux (.point p) ed = .ok b) :
    initSource env sym mono th k ed shifting true fb mg
      = .ok (some (.point { p with isEdge := b })) := by
  have hAtt : multiAttempt env sym mono th ed shifting true k = .ok (m, 0) := by
    unfold multiAttempt
    rw [hm]
    dsimp only
    rw [if_neg (show ¬ (multiGateFail m = true) by simp [hg]),
      if_pos (show (true && (m.components.all fun c => (c.bboxShape.drop 1).all (· ≤ 8)))
        = true by simpa using h8)]
  have hml : multiLoop env sym mono th ed shifting true fb k.toNat k = .ok (some m, 0) := by
    obtain ⟨n, hn⟩ : ∃ n, k.toNat = n + 1 := ⟨k.toNat - 1, by omega⟩
    rw [hn, multiLoop_succ, if_pos hk, hAtt]
  show initSourceFuel env (1 + 1) sym mono th k ed shifting true fb mg = _
  rw [initSourceFuel_succ, hml]
  dsimp only
  have hss : singleStage env sym mono th mg ed shifting true fb (some m) 0
      = .ok (some (Source.multi m), 0) := by
    unfold singleStage
    norm_num
  rw [hss]
  dsimp only
  unfold pointStage
  rw [if_pos rfl, hp]
  dsimp only
  unfold finishSource
  rw [he]
  cases b
  · rfl
  · rfl

/-- C1 witness: the downgrade replacement theorem applied at the concrete
environment `envC1`. -/
theorem C1_witness :
    initSource envC1 false true 1 2 (some 1) false true true 0
      = .ok (some (Source.point { pC1 with isEdge := false })) :=
  C1_downgrade_replaces envC1 false true 1 2 (some 1) false true 0 mC1 pC1 false
    (by norm_num) rfl rfl rfl rfl rfl

/-- C3 (amended): with `fallback=False` a construction failure at the multi
component stage (first conjunct) or at the single component stage (second
conjunct) is raised to the caller, while a point source construction
failure returns `None` whatever the value of `fallback` (third conjunct). -/
theorem C3_fallback_raises (env : Env) (sym mono : Bool) (th : ℚ) (k : Int)
    (ed : Option Int) (shifting dg : Bool) (mg : ℚ) (e : PyErr) :
    (1 < k → env.multi sym mono th shifting = .error e →
      initSource env sym mono th k ed shifting dg false mg = .error e)
    ∧ (env.extended sym mono th mg shifting = .error e →
      initSource env sym mono th 1 ed shifting dg false mg = .error e)
    ∧ (∀ fb, env.point = .error e →
      initSource env sym mono th 0 ed shifting dg fb mg = .ok none) := by
  refine ⟨?_, ?_, ?_⟩
  · intro hk hm
    have hAtt : multiAttempt env sym mono th ed shifting dg k = .error e := by
      unfold multiAttempt
      rw [hm]
    have hml : multiLoop env sym mono th ed shifting dg false k.toNat k = .error e := by
      obtain ⟨n, hn⟩ : ∃ n, k.toNat = n + 1 := ⟨k.toNat - 1, by omega⟩
      rw [hn, multiLoop_succ, if_pos hk, hAtt]
      rfl
    show initSourceFuel env (1 + 1) sym mono th k ed shifting dg false mg = .error e
    rw [initSourceFuel_succ, hml]
  · intro hx
    have hAtt : singleAttempt env sym mono th mg ed shifting dg = .error e := by
      unfold singleAttempt
      rw [hx]
    have hss : singleStage env sym mono th mg ed shifting dg false none 1 = .error e := by
      unfold singleStage
      rw [if_pos rfl, hAtt]
      rfl
    show initSourceFuel env (1 + 1) sym mono th 1 ed shifting dg false mg = .error e
    rw [initSourceFuel_succ,
      show multiLoop env sym mono th ed shifting dg false (Int.toNat 1) 1
        = .ok (none, 1) from rfl]
    dsimp only
    rw [hss]
  · intro fb hp
    have hss : singleStage env sym mono th mg ed shifting dg fb none 0 = .ok (none, 0) := by
      unfold singleStage
      rw [if_neg (by norm_num)]
      rfl
    show initSourceFuel env (1 + 1) sym mono th 0 ed shifting dg fb mg = .ok none
    rw [initSourceFuel_succ,
      show multiLoop env sym mono th ed shifting dg fb (Int.toNat 0) 0
        = .ok (none, 0) from rfl]
    dsimp only
    rw [hss]
    dsimp only
    unfold pointStage
    rw [if_pos rfl, hp]

/-- C3 witness: the three conjuncts of the fallback theorem applied at the
concrete all-failing environment `envC3`. -/
theorem C3_witness :
    initSource envC3 false true 1 2 none false true false 0 = .error .valueError
    ∧ initSource envC3 false true 1 1 none false true false 0 = .error .valueError
    ∧ initSource envC3 false true 1 0 none false true true 0 = .ok none :=
  ⟨(C3_fallback_raises envC3 false true 1 2 none false true 0 .valueError).1
      (by norm_num) rfl,
    (C3_fallback_raises envC3 false true 1 1 none false true 0 .valueError).2.1 rfl,
    (C3_fallback_raises envC3 false true 1 0 none false true 0 .valueError).2.2 true rfl⟩

lemma multiAttempt_error_indep (env : Env) (sym mono : Bool) (th : ℚ) (ed : Option Int)
    (shifting dg : Bool) (e : PyErr) (k kNew : Int)
    (h : multiAttempt env sym mono th ed shifting dg k = .error e) :
    multiAttempt env sym mono th ed shifting dg kNew = .error e := by
  unfold multiAttempt at h ⊢
  cases hm : env.multi sym mono th shifting with
  | error f => rw [hm] at h; dsimp only at h ⊢; exact h
  | ok s =>
    rw [hm] at h
    dsimp only at h ⊢
    by_cases h1 : multiGateFail s = true
    · rw [if_pos h1] at h ⊢; exact h
    · rw [if_neg h1] at h ⊢
      by_cases h2 : (dg && (s.components.all fun c => (c.bboxShape.drop 1).all (· ≤ 8))) = true
      · rw [if_pos h2] at h; cases h
      · rw [if_neg h2] at h ⊢
        by_cases h3 : (dg && (s.components.all fun c => (c.bboxShape.drop 1).all (· ≤ 16))) = true
        · rw [if_pos h3] at h; cases h
        · rw [if_neg h3] at h ⊢
          cases hef : hasEdgeFlux (.multi s) ed with
          | error f => rw [hef] at h; dsimp only at h ⊢; exact h
          | ok bb =>
            rw [hef] at h
            cases bb <;> cases h

lemma multiLoop_allError (env : Env) (sym mono : Bool) (th : ℚ) (ed : Option Int)
    (shifting dg : Bool) (e : PyErr)
    (hAll : ∀ kk : Int, multiAttempt env sym mono th ed shifting dg kk = .error e) :
    ∀ (f : Nat) (k : Int), 1 ≤ k → k.toNat ≤ f →
      multiLoop env sym mono th ed shifting dg true f k = .ok (none, 1)
  | 0, k, h1, h2 => by exfalso; omega
  | f + 1, k, h1, h2 => by
    rw [multiLoop_succ]
    by_cases hk : 1 < k
    · rw [if_pos hk, hAll k]
      dsimp only
      rw [if_pos rfl]
      exact multiLoop_allError env sym mono th ed shifting dg e hAll f (k - 1)
        (by omega) (by omega)
    · rw [if_neg hk]
      have hk1 : k = 1 := by omega
      rw [hk1]

/-- C7 (amended): with an integer `edgeDistance ≤ 0` and `fallback=True`,
the assertion failure raised by the in-branch edge test is caught by the
fallback loop and converted into component count decrements — the loop ends
with no model and the count at 1 (first conjunct) — and the call finally
raises the `AssertionError` only from the final edge test outside the try
blocks (second conjunct), here after the single stage failed and a point
source was built. -/
theorem C7_assert_swallowed (env : Env) (sym mono : Bool) (th : ℚ) (k d : Int)
    (shifting : Bool) (mg : ℚ) (m : MultiSrc) (e : PyErr) (p : PointSrc)
    (hd : d ≤ 0) (hk : 1 < k)
    (hm : env.multi sym mono th shifting = .ok m)
    (hg : multiGateFail m = false)
    (hx : env.extended sym mono th mg shifting = .error e)
    (hp : env.point = .ok p) :
    multiLoop env sym mono th (some d) shifting false true k.toNat k = .ok (none, 1)
    ∧ initSource env sym mono th k (some d) shifting false true mg
        = .error .assertionError := by
  have hedge : ∀ src : Source, hasEdgeFlux src (some d) = .error .assertionError := by
    intro src
    unfold hasEdgeFlux
    dsimp only
    rw [if_pos hd]
  have hAtt : ∀ kk : Int,
      multiAttempt env sym mono th (some d) shifting false kk = .error .assertionError := by
    intro kk
    unfold multiAttempt
    rw [hm]
    dsimp only
    rw [if_neg (by simp [hg]), if_neg (by simp), if_neg (by simp), hedge (.multi m)]
  have hml := multiLoop_allError env sym mono th (some d) shifting false .assertionError
    hAtt k.toNat k (by omega) (le_refl _)
  refine ⟨hml, ?_⟩
  have hsa : singleAttempt env sym mono th mg (some d) shifting false = .error e := by
    unfold singleAttempt
    rw [hx]
  have hss : singleStage env sym mono th mg (some d) shifting false true none 1
      = .ok (none, 0) := by
    unfold singleStage
    rw [if_pos rfl, hsa]
    rfl
  show initSourceFuel env (1 + 1) sym mono th k (some d) shifting false true mg
      = .error .assertionError
  rw [initSourceFuel_succ, hml]
  dsimp only
  rw [hss]
  dsimp only
  unfold pointStage
  rw [if_pos rfl, hp]
  dsimp only
  unfold finishSource
  rw [hedge (.point p)]

/-- C7 witness: the theorem applied at the concrete environment `envC7w`
with `edgeDistance = 0` and `maxComponents = 2`. -/
theorem C7_witness :
    multiLoop envC7w false true 1 (some 0) false false true (Int.toNat 2) 2
      = .ok (none, 1)
    ∧ initSource envC7w false true 1 2 (some 0) false false true 0
        = .error .assertionError :=
  C7_assert_swallowed envC7w false true 1 2 0 false 0 mC7 .valueError pC7
    (by norm_num) (by norm_num) rfl rfl rfl rfl

/-- C8 (amended): with `downgrade` disabled and no edge handling, the first
structurally valid model at the multi component level is kept (first
conjunct), and consequently a model of a less expressive class is returned
only when the multi component attempt had an outright validity failure
(second conjunct: a non multi result implies the constructed multi model
failed the gate). -/
theorem C8_strict_order (env : Env) (sym mono : Bool) (th : ℚ) (k : Int)
    (shifting fb : Bool) (mg : ℚ) (hk : 1 < k) :
    (∀ m : MultiSrc, env.multi sym mono th shifting = .ok m → multiGateFail m = false →
      initSource env sym mono th k none shifting false fb mg
        = .ok (some (.multi { m with isEdge := false })))
    ∧ (∀ src : Source,
        initSource env sym mono th k none shifting false fb mg = .ok (some src) →
        (∀ m : MultiSrc, src ≠ .multi m) →
        ∀ m : MultiSrc, env.multi sym mono th shifting = .ok m →
        multiGateFail m = true) := by
  have hA : ∀ m : MultiSrc, env.multi sym mono th shifting = .ok m →
      multiGateFail m = false →
      initSource env sym mono th k none shifting false fb mg
        = .ok (some (.multi { m with isEdge := false })) := by
    intro m hm hg
    have hAtt : multiAttempt env sym mono th none shifting false k = .ok (m, k) := by
      unfold multiAttempt
      rw [hm]
      dsimp only
      rw [if_neg (by simp [hg]), if_neg (by simp), if_neg (by simp)]
      rfl
    have hml : multiLoop env sym mono th none shifting false fb k.toNat k
        = .ok (some m, k) := by
      obtain ⟨n, hn⟩ : ∃ n, k.toNat = n + 1 := ⟨k.toNat - 1, by omega⟩
      rw [hn, multiLoop_succ, if_pos hk, hAtt]
    have hss : singleStage env sym mono th mg none shifting false fb (some m) k
        = .ok (some (.multi m), k) := by
      unfold singleStage
      rw [if_neg (by omega)]
      rfl
    show initSourceFuel env (1 + 1) sym mono th k none shifting false fb mg = _
    rw [initSourceFuel_succ, hml]
    dsimp only
    rw [hss]
    dsimp only
    unfold pointStage
    rw [if_neg (by omega)]
    dsimp only
    rfl
  refine ⟨hA, ?_⟩
  intro src hres hnm m hm
  by_contra hgf
  have hg : multiGateFail m = false := by
    revert hgf
    cases multiGateFail m <;> simp
  have heq := (hA m hm hg).symm.trans hres
  simp only [Except.ok.injEq, Option.some.injEq] at heq
  exact hnm _ heq.symm

/-- C8 witness: the strict order theorem applied at the concrete
environment `envW8` with `maxComponents = 2`. -/
theorem C8_witness :
    initSource envW8 false true 1 2 none false false true 0
      = .ok (some (.multi { mW8 with isEdge := false })) :=
  (C8_strict_order envW8 false true 1 2 false true 0 (by norm_num)).1 mW8 rfl rfl

/-- C10: when the final edge test triggers the rebuild from the single
component stage, the call is exactly the recursive call with `shifting=True`
and the defaulted `downgrade=True`, `fallback=True`, `minGradient=0`,
whatever `downgrade`, `fallback` and `minGradient` the caller supplied. -/
theorem C10_rebuild_defaults (env : Env) (sym mono : Bool) (th : ℚ) (ed : Option Int)
    (dg fb : Bool) (mg : ℚ) (s : ExtSrc)
    (hx : env.extended sym mono th mg false = .ok s)
    (hg : singleGateFail s = false)
    (hb : ((s.bboxShape.drop 1).all (· ≤ 16)) = false)
    (he : hasEdgeFlux (.extended s) ed = .ok true) :
    initSource env sym mono th 1 ed false dg fb mg
      = initSource env sym mono th 1 ed true true true 0 := by
  have hAtt : singleAttempt env sym mono th mg ed false dg
      = .ok ({ s with shifting := true }, 1) := by
    unfold singleAttempt
    rw [hx]
    dsimp only
    rw [if_neg (by simp [hg]),
      if_neg (fun hcond => by
        have h2 := (Bool.and_eq_true .. ▸ hcond).2
        rw [h2] at hb
        cases hb), he]
  have hss : singleStage env sym mono th mg ed false dg fb none 1
      = .ok (some (.extended { s with shifting := true }), 1) := by
    unfold singleStage
    rw [if_pos rfl, hAtt]
  have he2 : hasEdgeFlux (.extended { s with shifting := true }) ed = .ok true := he
  show initSourceFuel env (1 + 1) sym mono th 1 ed false dg fb mg
      = initSourceFuel env 2 sym mono th 1 ed true true true 0
  rw [initSourceFuel_succ,
    show multiLoop env sym mono th ed false dg fb (Int.toNat 1) 1 = .ok (none, 1) from rfl]
  dsimp only
  rw [hss]
  dsimp only
  unfold pointStage
  rw [if_neg (by norm_num)]
  dsimp only
  unfold finishSource
  rw [he2]
  have hcond : (!(Source.extended { s with shifting := true }).isPoint && !false) = true := rfl
  rw [if_pos hcond]
  dsimp only
  exact (initSourceFuel_shifting_true env 1 sym mono th 1 ed true true 0).symm

/-- C10 witness: the rebuild forwarding theorem applied at the concrete
environment `envW10`, with caller supplied `downgrade=False`,
`fallback=False` and `minGradient=5` overridden by the defaults. -/
theorem C10_witness :
    initSource envW10 false true 1 1 (some 1) false false false 5
      = initSource envW10 false true 1 1 (some 1) true true true 0 :=
  C10_rebuild_defaults envW10 false true 1 (some 1) false false 5 sW10 rfl rfl rfl rfl

lemma initAllSourcesGo_spec {C : Type} (envOf : C → Env) (sym mono : Bool) (th : ℚ)
    (maxC : Int) (ed : Option Int) (shifting dg fb : Bool) (mg : ℚ) :
    ∀ (cs : List C) (k : Nat) (srcs : List Source) (skipped : List Nat),
      initAllSourcesGo envOf sym mono th maxC ed shifting dg fb mg cs k
        = .ok (srcs, skipped) →
      srcs.length + skipped.length = cs.length
      ∧ srcs = cs.filterMap (fun c =>
          match initSource (envOf c) sym mono th maxC ed shifting dg fb mg with
          | .ok (some s) => some s
          | _ => none)
      ∧ (∀ i : Nat, i ∈ skipped ↔ (k ≤ i ∧
          (cs.get? (i - k)).map
            (fun c => initSource (envOf c) sym mono th maxC ed shifting dg fb mg)
            = some (.ok none)))
      ∧ skipped.Pairwise (· < ·)
  | [], k, srcs, skipped, h => by
    simp only [initAllSourcesGo, Except.ok.injEq, Prod.mk.injEq] at h
    obtain ⟨rfl, rfl⟩ := h
    refine ⟨rfl, rfl, ?_, List.Pairwise.nil⟩
    intro i
    simp
  | c :: rest, k, srcs, skipped, h => by
    unfold initAllSourcesGo at h
    cases hres : initSource (envOf c) sym mono th maxC ed shifting dg fb mg with
    | error e => rw [hres] at h; cases h
    | ok osrc =>
      rw [hres] at h
      dsimp only at h
      cases hgo : initAllSourcesGo envOf sym mono th maxC ed shifting dg fb mg rest (k + 1) with
      | error e => rw [hgo] at h; cases h
      | ok q =>
        obtain ⟨srcs', skipped'⟩ := q
        rw [hgo] at h
        dsimp only at h
        obtain ⟨hlen, hsrcs, hmem, hpw⟩ :=
          initAllSourcesGo_spec envOf sym mono th maxC ed shifting dg fb mg
            rest (k + 1) srcs' skipped' hgo
        cases osrc with
        | some s =>
          simp only [Except.ok.injEq, Prod.mk.injEq] at h
          obtain ⟨rfl, rfl⟩ := h
          refine ⟨by simp [hlen]; omega, ?_, ?_, hpw⟩
          · rw [List.filterMap_cons]
            rw [hres]
            dsimp only
            rw [hsrcs]
          · intro i
            rw [hmem i]
            constructor
            · rintro ⟨hki, hget⟩
              refine ⟨by omega, ?_⟩
              rw [show i - k = (i - (k + 1)) + 1 by omega, List.get?_cons_succ]
              exact hget
            · rintro ⟨hki, hget⟩
              rcases Nat.eq_or_lt_of_le hki with heq | hlt
              · exfalso
                rw [show i - k = 0 by omega, List.get?_cons_zero] at hget
                simp only [Option.map_some', Option.some.injEq] at hget
                rw [hres] at hget
                cases hget
              · refine ⟨by omega, ?_⟩
                rw [show i - k = (i - (k + 1)) + 1 by omega, List.get?_cons_succ] at hget
                exact hget
        | none =>
          simp only [Except.ok.injEq, Prod.mk.injEq] at h
          obtain ⟨rfl, rfl⟩ := h
          have hge : ∀ j ∈ skipped', k < j := by
            intro j hj
            have := (hmem j).1 hj
            omega
          refine ⟨by simp [hlen]; omega, ?_, ?_, List.pairwise_cons.2 ⟨hge, hpw⟩⟩
          · rw [List.filterMap_cons]
            rw [hres]
            dsimp only
            rw [hsrcs]
          · intro i
            simp only [List.mem_cons]
            constructor
            · rintro (rfl | hi)
              · refine ⟨le_refl i, ?_⟩
                rw [Nat.sub_self, List.get?_cons_zero]
                simp only [Option.map_some', Option.some.injEq]
                rw [hres]
              · obtain ⟨hki, hget⟩ := (hmem i).1 hi
                refine ⟨by omega, ?_⟩
                rw [show i - k = (i - (k + 1)) + 1 by omega, List.get?_cons_succ]
                exact hget
            · rintro ⟨hki, hget⟩
              rcases Nat.eq_or_lt_of_le hki with heq | hlt
              · exact .inl heq.symm
              · refine .inr ((hmem i).2 ⟨by omega, ?_⟩)
                rw [show i - k = (i - (k + 1)) + 1 by omega, List.get?_cons_succ] at hget
                exact hget

/-- C4: when `initAllSources` on a list of centers returns `(sources,
skipped)`, the lengths sum to the number of centers; `sources` is, in input
order, exactly the list of non-`None` results of `initSource` on each
center; an index is in `skipped` exactly when `initSource` on that center
returned `None`; and `skipped` is strictly ascending. -/
theorem C4_initAllSources {C : Type} (envOf : C → Env) (sym mono : Bool) (th : ℚ)
    (maxC : Int) (ed : Option Int) (shifting dg fb : Bool) (mg : ℚ)
    (centers : List C) (srcs : List Source) (skipped : List Nat)
    (h : initAllSources envOf sym mono th maxC ed shifting dg fb mg centers
      = .ok (srcs, skipped)) :
    srcs.length + skipped.length = centers.length
    ∧ srcs = centers.filterMap (fun c =>
        match initSource (envOf c) sym mono th maxC ed shifting dg fb mg with
        | .ok (some s) => some s
        | _ => none)
    ∧ (∀ i : Nat, i ∈ skipped ↔
        (centers.get? i).map
          (fun c => initSource (envOf c) sym mono th maxC ed shifting dg fb mg)
          = some (.ok none))
    ∧ skipped.Pairwise (· < ·) := by
  obtain ⟨hlen, hsrcs, hmem, hpw⟩ :=
    initAllSourcesGo_spec envOf sym mono th maxC ed shifting dg fb mg
      centers 0 srcs skipped h
  refine ⟨hlen, hsrcs, ?_, hpw⟩
  intro i
  rw [hmem i]
  simp

/-- C4 witness: the batch theorem applied to two concrete centers, of which
the second is skipped. -/
theorem C4_witness :
    ([Source.point { pW4 with isEdge := false }].length + [1].length = 2)
    ∧ (1 ∈ [1] ↔ True)
    ∧ ([1] : List Nat).Pairwise (· < ·) := by
  obtain ⟨hlen, hsrcs, hmem, hpw⟩ :=
    C4_initAllSources envOfW4 false true 1 0 none false true true 0
      [true, false] [Source.point { pW4 with isEdge := false }] [1] rfl
  refine ⟨hlen, ?_, hpw⟩
  rw [hmem 1]
  simp only [iff_true]
  rfl

/-- C9: `makeCatalog` is deterministic — two invocations on equal inputs
(equal stacks, detection level and wavelet flag) against the same backend
return equal catalogs and equal noise estimates.  The embedding is a pure
function of its inputs: the code keeps no global state and uses no
randomness, so equal inputs give equal outputs, in the same order. -/
theorem C9_deterministic {Arr W Crd Cat : Type} (env : DetEnv Arr W Crd Cat)
    (d1 d2 : Datas Arr W) (l1 l2 : ℚ) (w1 w2 : Bool)
    (hd : d1 = d2) (hl : l1 = l2) (hw : w1 = w2) :
    makeCatalog env d1 l1 w1 = makeCatalog env d2 l2 w2 := by
  subst hd
  subst hl
  subst hw
  rfl

/-- C9 witness: the determinism theorem applied at a concrete backend and
input. -/
theorem C9_witness :
    makeCatalog detEnvW (.arr 5) 3 true = makeCatalog detEnvW (.arr 5) 3 true :=
  C9_deterministic detEnvW (.arr 5) (.arr 5) 3 3 true true rfl rfl rfl
